import Mathlib

set_option autoImplicit false

namespace SmartIssueTracker

/-! Shallow embedding of the Smart Issue Tracker API (FastAPI ticket CRUD).
Sources: app/models/ticket.py, app/schemas/ticket.py,
app/services/ticket_service.py, app/routes/ticket_routes.py. -/

/-- Entity model (app/models/ticket.py, class Ticket): one row of the tickets
table. The ORM columns title, description and status are declared without
nullable=False, so they are nullable strings; id is the integer primary key,
always populated on a persisted row. -/
structure Ticket where
  id : Nat
  title : Option String
  description : Option String
  status : Option String
deriving Repr, DecidableEq

/-- Creation input schema (app/schemas/ticket.py, TicketCreate via TicketBase):
title and description are required strings. -/
structure TicketCreate where
  title : String
  description : String
deriving Repr, DecidableEq

/-- Update input schema (app/schemas/ticket.py, TicketUpdate): every field is
optional with default None, and pydantic tracks which fields were explicitly
set. A field of value none means absent from the request body; some v means
explicitly provided with value v, where v = none encodes an explicit JSON
null. model_dump with exclude_unset=True keeps exactly the some fields. -/
structure TicketUpdate where
  title : Option (Option String) := none
  description : Option (Option String) := none
  status : Option (Option String) := none
deriving Repr, DecidableEq

/-- Output schema (app/schemas/ticket.py, TicketOut): id, title, description
and status, all required, copied from a persisted entity. -/
structure TicketOut where
  id : Nat
  title : String
  description : String
  status : String
deriving Repr, DecidableEq

/-- Modelled from the spec: the record store behind the Session handle.
app/database.py and the database engine are not under src/, so the store is
modelled from the spec: a single table of ticket rows, and an id allocator
satisfying "id: integer, unique, assigned by the store on creation" and
"id is never reused or changed after creation", modelled as a monotonically
increasing counter starting at 1. -/
structure Store where
  rows : List Ticket
  nextId : Nat
deriving Repr, DecidableEq

/-- The store before any operation: no rows, first id to assign is 1. -/
def emptyStore : Store := { rows := [], nextId := 1 }

/-- Service get_all_tickets: db.query(Ticket).all(). -/
def get_all_tickets (s : Store) : List Ticket :=
  s.rows

/-- Service get_ticket: db.query(Ticket).filter(Ticket.id == ticket_id).first(),
the first row with matching id, or None. -/
def get_ticket (s : Store) (ticket_id : Nat) : Option Ticket :=
  s.rows.find? (fun t => t.id == ticket_id)

/-- Service create_ticket: builds Ticket(**ticket.model_dump()) so title and
description come from the input, status takes the column default "open",
the store assigns the id on commit; the new row is persisted and returned. -/
def create_ticket (s : Store) (ticket : TicketCreate) : Ticket × Store :=
  let db_ticket : Ticket :=
    { id := s.nextId
      title := some ticket.title
      description := some ticket.description
      status := some "open" }
  (db_ticket, { rows := s.rows ++ [db_ticket], nextId := s.nextId + 1 })

/-- The setattr loop of update_ticket: for each field present in
ticket.model_dump(exclude_unset=True), overwrite that attribute of the row;
absent fields keep their current value. -/
def applyUpdate (u : TicketUpdate) (t : Ticket) : Ticket :=
  { t with
    title := u.title.getD t.title
    description := u.description.getD t.description
    status := u.status.getD t.status }

/-- In-place mutation of the row found by get_ticket: the first row with
matching id is overwritten by the setattr loop, every other row is kept. -/
def setFirst : List Ticket → Nat → TicketUpdate → List Ticket
  | [], _, _ => []
  | t :: ts, ticket_id, u =>
    if t.id == ticket_id then applyUpdate u t :: ts
    else t :: setFirst ts ticket_id u

/-- Service update_ticket: looks up the row; on absence returns None leaving
the store untouched; otherwise applies the explicitly set fields, commits,
and returns the updated row. -/
def update_ticket (s : Store) (ticket_id : Nat) (ticket : TicketUpdate) :
    Option Ticket × Store :=
  match get_ticket s ticket_id with
  | none => (none, s)
  | some db_ticket =>
    (some (applyUpdate ticket db_ticket),
     { s with rows := setFirst s.rows ticket_id ticket })

/-- Removal of the row found by get_ticket: the first row with matching id is
dropped, every other row is kept. -/
def dropFirst : List Ticket → Nat → List Ticket
  | [], _ => []
  | t :: ts, ticket_id =>
    if t.id == ticket_id then ts else t :: dropFirst ts ticket_id

/-- Service delete_ticket: looks up the row; on absence returns None leaving
the store untouched; otherwise removes the row, commits, and returns the
entity as it was immediately before removal. -/
def delete_ticket (s : Store) (ticket_id : Nat) : Option Ticket × Store :=
  match get_ticket s ticket_id with
  | none => (none, s)
  | some db_ticket =>
    (some db_ticket, { s with rows := dropFirst s.rows ticket_id })

/-- The fixed error body raised by the routes on a missing id. -/
structure ErrorBody where
  detail : String
deriving Repr, DecidableEq

/-- An HTTP response of the ticket routes: either a serialized entity with a
status code, or an error body with a status code. -/
inductive Response where
  | entity (code : Nat) (body : TicketOut)
  | failure (code : Nat) (body : ErrorBody)
deriving Repr, DecidableEq

/-- Serialization against response_model=TicketOut: copies the attributes of a
persisted entity; a null column cannot satisfy the required output fields, in
which case response validation fails (an internal server error). -/
def toTicketOut (t : Ticket) : Option TicketOut :=
  match t.title, t.description, t.status with
  | some ti, some d, some st =>
    some { id := t.id, title := ti, description := d, status := st }
  | _, _, _ => none

/-- Wraps serialization of an entity at a given success code. -/
def serialize (code : Nat) (t : Ticket) : Response :=
  match toTicketOut t with
  | some out => .entity code out
  | none => .failure 500 { detail := "Internal Server Error" }

/-- A raw creation request body, before schema validation: either text field
may be missing. -/
structure CreateRequest where
  title : Option String
  description : Option String
deriving Repr, DecidableEq

/-- Schema validation of a creation request against TicketCreate: both
required fields must be present, otherwise the request is rejected with a
validation error before the service layer runs. -/
def parseTicketCreate (r : CreateRequest) : Option TicketCreate :=
  match r.title, r.description with
  | some t, some d => some { title := t, description := d }
  | _, _ => none

/-- Route POST /tickets/ (status_code=201): validates the body against
TicketCreate; on failure a 422 validation error leaves the store unchanged;
on success the service creates the ticket and the entity is returned. -/
def route_create (s : Store) (r : CreateRequest) : Response × Store :=
  match parseTicketCreate r with
  | none => (.failure 422 { detail := "Field required" }, s)
  | some ticket =>
    let res := create_ticket s ticket
    (serialize 201 res.1, res.2)

/-- Route GET /tickets/{ticket_id}: 404 with detail "Ticket not found" when
the service returns None, otherwise 200 with the entity. -/
def route_get (s : Store) (ticket_id : Nat) : Response :=
  match get_ticket s ticket_id with
  | none => .failure 404 { detail := "Ticket not found" }
  | some t => serialize 200 t

/-- Route PUT /tickets/{ticket_id}: 404 with detail "Ticket not found" when
the service returns None, otherwise 200 with the updated entity. -/
def route_update (s : Store) (ticket_id : Nat) (ticket : TicketUpdate) :
    Response × Store :=
  match update_ticket s ticket_id ticket with
  | (none, s2) => (.failure 404 { detail := "Ticket not found" }, s2)
  | (some t, s2) => (serialize 200 t, s2)

/-- Route DELETE /tickets/{ticket_id}: no explicit status_code, so the
framework default 200 on success; 404 with detail "Ticket not found" when the
service returns None. -/
def route_delete (s : Store) (ticket_id : Nat) : Response × Store :=
  match delete_ticket s ticket_id with
  | (none, s2) => (.failure 404 { detail := "Ticket not found" }, s2)
  | (some t, s2) => (serialize 200 t, s2)

/-- One service-level operation on the store, for reasoning about whole
operation sequences. -/
inductive Op where
  | create (input : TicketCreate)
  | update (ticket_id : Nat) (input : TicketUpdate)
  | delete (ticket_id : Nat)
deriving Repr

/-- Effect of one operation on the store. -/
def applyOp (s : Store) : Op → Store
  | .create input => (create_ticket s input).2
  | .update ticket_id input => (update_ticket s ticket_id input).2
  | .delete ticket_id => (delete_ticket s ticket_id).2

/-- Runs a sequence of operations from a starting store. -/
def execOps (s : Store) : List Op → Store
  | [] => s
  | op :: ops => execOps (applyOp s op) ops

/-- The ids handed out by the store along a sequence of operations, in order:
each create records the id it assigns. -/
def assignedIds (s : Store) : List Op → List Nat
  | [] => []
  | op :: ops =>
    match op with
    | .create _ => s.nextId :: assignedIds (applyOp s op) ops
    | _ => assignedIds (applyOp s op) ops

/-- All row ids are below the next id the store will assign. -/
def StoreWF (s : Store) : Prop :=
  ∀ t ∈ s.rows, t.id < s.nextId

instance : DecidablePred StoreWF := fun s =>
  inferInstanceAs (Decidable (∀ t ∈ s.rows, t.id < s.nextId))

/-- Row ids are pairwise distinct and below the next id to assign. -/
def StoreInv (s : Store) : Prop :=
  (s.rows.map Ticket.id).Nodup ∧ StoreWF s

instance : DecidablePred StoreInv := fun s =>
  inferInstanceAs (Decidable ((s.rows.map Ticket.id).Nodup ∧ StoreWF s))

/-- A ticket row with no null column among title, description, status. -/
def ticketNonNull (t : Ticket) : Bool :=
  t.title.isSome && t.description.isSome && t.status.isSome

/-- Every persisted row has non-null title, description and status. -/
def storeNonNull (s : Store) : Bool :=
  s.rows.all ticketNonNull

example : (create_ticket emptyStore { title := "Bug", description := "Fix crash" }).1
    = ({ id := 1, title := some "Bug", description := some "Fix crash", status := some "open" } : Ticket) := by
  decide

example :
    route_get (create_ticket emptyStore { title := "Bug", description := "Fix crash" }).2 1
    = .entity 200 { id := 1, title := "Bug", description := "Fix crash", status := "open" } := by
  decide

example : route_get emptyStore 7 = .failure 404 { detail := "Ticket not found" } := by
  decide

/-! Helper lemmas shared by the claim theorems. -/

theorem applyUpdate_id (u : TicketUpdate) (t : Ticket) : (applyUpdate u t).id = t.id :=
  rfl

theorem applyUpdate_default (t : Ticket) : applyUpdate {} t = t :=
  rfl

theorem setFirst_default (l : List Ticket) (n : Nat) : setFirst l n {} = l := by
  induction l with
  | nil => rfl
  | cons t ts ih =>
    by_cases h : t.id == n <;> simp [setFirst, h, applyUpdate_default, ih]

theorem setFirst_map_id (l : List Ticket) (n : Nat) (u : TicketUpdate) :
    (setFirst l n u).map Ticket.id = l.map Ticket.id := by
  induction l with
  | nil => rfl
  | cons t ts ih =>
    by_cases h : t.id == n <;> simp [setFirst, h, applyUpdate_id, ih]

theorem mem_setFirst (l : List Ticket) (n : Nat) (u : TicketUpdate) (t : Ticket)
    (h : l.find? (fun x => x.id == n) = some t) :
    applyUpdate u t ∈ setFirst l n u := by
  induction l with
  | nil => simp at h
  | cons a as ih =>
    cases ha : a.id == n with
    | true =>
      simp only [List.find?_cons, ha, Option.some.injEq] at h
      subst h
      simp [setFirst, ha]
    | false =>
      simp only [List.find?_cons, ha] at h
      simp [setFirst, ha, ih h]

theorem dropFirst_sublist (l : List Ticket) (n : Nat) : (dropFirst l n).Sublist l := by
  induction l with
  | nil => exact List.Sublist.refl _
  | cons t ts ih =>
    cases h : t.id == n with
    | true =>
      rw [dropFirst, if_pos h]
      exact List.sublist_cons_self t ts
    | false =>
      rw [dropFirst, if_neg (by simp [h])]
      exact ih.cons₂ t

theorem dropFirst_length (l : List Ticket) (n : Nat) (t : Ticket)
    (h : l.find? (fun x => x.id == n) = some t) :
    (dropFirst l n).length + 1 = l.length := by
  induction l with
  | nil => simp at h
  | cons a as ih =>
    cases ha : a.id == n with
    | true => simp [dropFirst, ha]
    | false =>
      simp only [List.find?_cons, ha] at h
      simp [dropFirst, ha, ih h]

theorem find?_dropFirst_none (l : List Ticket) (n : Nat) (t : Ticket)
    (hnd : (l.map Ticket.id).Nodup)
    (h : l.find? (fun x => x.id == n) = some t) :
    (dropFirst l n).find? (fun x => x.id == n) = none := by
  induction l with
  | nil => simp at h
  | cons a as ih =>
    rw [List.map_cons, List.nodup_cons] at hnd
    cases ha : a.id == n with
    | true =>
      have han : a.id = n := by simpa using ha
      simp only [dropFirst, if_pos ha]
      refine List.find?_eq_none.mpr fun x hx hxn => hnd.1 ?_
      have hxid : x.id = n := by simpa using hxn
      rw [han, ← hxid]
      exact List.mem_map_of_mem Ticket.id hx
    | false =>
      simp only [List.find?_cons, ha] at h
      simp only [dropFirst, if_neg (by simp [ha] : ¬(a.id == n) = true)]
      rw [List.find?_cons_of_neg _ (by simp [ha])]
      exact ih hnd.2 h

theorem nonNull_applyUpdate (u : TicketUpdate) (t : Ticket)
    (ht : ticketNonNull t = true)
    (h1 : u.title ≠ some none) (h2 : u.description ≠ some none)
    (h3 : u.status ≠ some none) :
    ticketNonNull (applyUpdate u t) = true := by
  simp only [ticketNonNull, applyUpdate, Bool.and_eq_true] at ht ⊢
  obtain ⟨⟨ht1, ht2⟩, ht3⟩ := ht
  refine ⟨⟨?_, ?_⟩, ?_⟩
  · match hu : u.title with
    | none => simpa using ht1
    | some none => exact absurd hu h1
    | some (some v) => simp
  · match hu : u.description with
    | none => simpa using ht2
    | some none => exact absurd hu h2
    | some (some v) => simp
  · match hu : u.status with
    | none => simpa using ht3
    | some none => exact absurd hu h3
    | some (some v) => simp

theorem all_setFirst (l : List Ticket) (n : Nat) (u : TicketUpdate)
    (hl : l.all ticketNonNull = true)
    (h1 : u.title ≠ some none) (h2 : u.description ≠ some none)
    (h3 : u.status ≠ some none) :
    (setFirst l n u).all ticketNonNull = true := by
  induction l with
  | nil => rfl
  | cons t ts ih =>
    rw [List.all_cons, Bool.and_eq_true] at hl
    by_cases h : t.id == n
    · simp [setFirst, h, nonNull_applyUpdate u t hl.1 h1 h2 h3, hl.2]
    · simp [setFirst, h, hl.1, ih hl.2]

theorem all_dropFirst (l : List Ticket) (n : Nat)
    (hl : l.all ticketNonNull = true) :
    (dropFirst l n).all ticketNonNull = true := by
  induction l with
  | nil => rfl
  | cons t ts ih =>
    rw [List.all_cons, Bool.and_eq_true] at hl
    by_cases h : t.id == n
    · simp [dropFirst, h, hl.2]
    · simp [dropFirst, h, hl.1, ih hl.2]

theorem nextId_applyOp (s : Store) (op : Op) : s.nextId ≤ (applyOp s op).nextId := by
  cases op with
  | create input => simp [applyOp, create_ticket]
  | update ticket_id input =>
    cases h : get_ticket s ticket_id <;> simp [applyOp, update_ticket, h]
  | delete ticket_id =>
    cases h : get_ticket s ticket_id <;> simp [applyOp, delete_ticket, h]

theorem assignedIds_lower (ops : List Op) :
    ∀ (s : Store), ∀ i ∈ assignedIds s ops, s.nextId ≤ i := by
  induction ops with
  | nil => intro s i hi; simp [assignedIds] at hi
  | cons op ops ih =>
    cases op with
    | create input =>
      intro s i hi
      simp only [assignedIds, List.mem_cons] at hi
      rcases hi with hi | hi
      · exact hi ▸ Nat.le_refl _
      · exact Nat.le_trans (nextId_applyOp s _) (ih _ i hi)
    | update ticket_id input =>
      intro s i hi
      exact Nat.le_trans (nextId_applyOp s _) (ih _ i hi)
    | delete ticket_id =>
      intro s i hi
      exact Nat.le_trans (nextId_applyOp s _) (ih _ i hi)

theorem assignedIds_pairwise (ops : List Op) :
    ∀ (s : Store), (assignedIds s ops).Pairwise (· < ·) := by
  induction ops with
  | nil => intro s; simp [assignedIds]
  | cons op ops ih =>
    intro s
    cases op with
    | create input =>
      refine List.Pairwise.cons (fun i hi => ?_) (ih _)
      have h1 : (applyOp s (.create input)).nextId ≤ i := assignedIds_lower ops _ i hi
      have h2 : (applyOp s (.create input)).nextId = s.nextId + 1 := rfl
      omega
    | update ticket_id input => exact ih _
    | delete ticket_id => exact ih _

/-! Shared concrete sample data for witnesses. -/

/-- The creation input used throughout the tests of the repository. -/
def sampleInput : TicketCreate := { title := "Bug", description := "Fix crash" }

/-- The store after creating one ticket from the empty store. -/
def sampleStore : Store := (create_ticket emptyStore sampleInput).2

/-- The ticket created from the empty store. -/
def sampleTicket : Ticket := (create_ticket emptyStore sampleInput).1

/-! Claim theorems. -/

/-- C1: for every valid creation input, create_ticket builds an entity with
status "open" and the title and description of the input, persists it in the
store, and returns it with the store-assigned id; the POST /tickets/ route
returns 201 with that entity, whose body has status "open". -/
theorem create_ticket_open_and_persisted (s : Store) (c : TicketCreate) :
    (create_ticket s c).1.status = some "open" ∧
    (create_ticket s c).1.title = some c.title ∧
    (create_ticket s c).1.description = some c.description ∧
    (create_ticket s c).1.id = s.nextId ∧
    (create_ticket s c).1 ∈ (create_ticket s c).2.rows ∧
    ∀ ti d : String,
      route_create s { title := some ti, description := some d } =
        (Response.entity 201
            { id := s.nextId, title := ti, description := d, status := "open" },
          (create_ticket s { title := ti, description := d }).2) := by
  refine ⟨rfl, rfl, rfl, rfl, ?_, ?_⟩
  · simp [create_ticket]
  · intro ti d
    rfl

/-- C3: for every id not present in the store, get_ticket returns the explicit
not-found signal None rather than raising, and the GET, PUT and DELETE routes
for that id each answer 404 with body detail "Ticket not found", leaving the
store unchanged. -/
theorem get_absent_not_found (s : Store) (ticket_id : Nat)
    (h : ∀ t ∈ s.rows, t.id ≠ ticket_id) :
    get_ticket s ticket_id = none ∧
    route_get s ticket_id = .failure 404 { detail := "Ticket not found" } ∧
    (∀ u : TicketUpdate,
      route_update s ticket_id u =
        (.failure 404 { detail := "Ticket not found" }, s)) ∧
    route_delete s ticket_id = (.failure 404 { detail := "Ticket not found" }, s) := by
  have hn : get_ticket s ticket_id = none :=
    List.find?_eq_none.mpr fun t ht => by simpa using h t ht
  refine ⟨hn, ?_, ?_, ?_⟩
  · simp [route_get, hn]
  · intro u
    simp [route_update, update_ticket, hn]
  · simp [route_delete, delete_ticket, hn]

theorem get_absent_not_found_witness :
    get_ticket emptyStore 1 = none ∧
    route_get emptyStore 1 = .failure 404 { detail := "Ticket not found" } :=
  ⟨(get_absent_not_found emptyStore 1 (by decide)).1,
   (get_absent_not_found emptyStore 1 (by decide)).2.1⟩

/-- C6: creating a ticket and then fetching the id returned by create yields
exactly the created entity, with the same title, description and status, for
any store whose row ids are below the id allocator. -/
theorem create_then_get_roundtrip (s : Store) (c : TicketCreate) (h : StoreWF s) :
    get_ticket (create_ticket s c).2 (create_ticket s c).1.id =
      some (create_ticket s c).1 ∧
    (create_ticket s c).1.title = some c.title ∧
    (create_ticket s c).1.description = some c.description ∧
    (create_ticket s c).1.status = some "open" := by
  refine ⟨?_, rfl, rfl, rfl⟩
  have h1 : List.find? (fun t => t.id == s.nextId) s.rows = none := by
    refine List.find?_eq_none.mpr fun t ht => ?_
    have hlt := h t ht
    simp only [beq_iff_eq]
    omega
  simp [get_ticket, create_ticket, List.find?_append, h1]

theorem create_then_get_roundtrip_witness :
    StoreWF emptyStore ∧
    get_ticket (create_ticket emptyStore sampleInput).2
        (create_ticket emptyStore sampleInput).1.id =
      some (create_ticket emptyStore sampleInput).1 :=
  ⟨by decide, (create_then_get_roundtrip emptyStore sampleInput (by decide)).1⟩

/-- C7: a creation request missing the title field or the description field
fails schema validation, so the route answers with a 422 validation error and
the store is left unchanged; the service layer is never reached. -/
theorem create_missing_field_rejected (s : Store) (r : CreateRequest)
    (h : r.title = none ∨ r.description = none) :
    route_create s r = (.failure 422 { detail := "Field required" }, s) := by
  obtain ⟨rt, rd⟩ := r
  rcases h with h | h
  · subst h
    simp [route_create, parseTicketCreate]
  · subst h
    cases rt <;> simp [route_create, parseTicketCreate]

theorem create_missing_field_rejected_witness :
    route_create emptyStore { title := some "Bug", description := none } =
      (.failure 422 { detail := "Field required" }, emptyStore) :=
  create_missing_field_rejected emptyStore
    { title := some "Bug", description := none } (Or.inr rfl)

/-- C9: the DELETE route on an existing ticket answers with status code 200,
the framework default declared for the route, and the deleted entity as
body. -/
theorem delete_route_success (s : Store) (ticket_id : Nat) (t : Ticket)
    (out : TicketOut)
    (h : get_ticket s ticket_id = some t) (ho : toTicketOut t = some out) :
    route_delete s ticket_id = (.entity 200 out, (delete_ticket s ticket_id).2) := by
  simp [route_delete, delete_ticket, h, serialize, ho]

theorem delete_route_success_witness :
    route_delete sampleStore 1 =
      (.entity 200 { id := 1, title := "Bug", description := "Fix crash", status := "open" },
        (delete_ticket sampleStore 1).2) :=
  delete_route_success sampleStore 1 sampleTicket
    { id := 1, title := "Bug", description := "Fix crash", status := "open" }
    (by decide) (by decide)

/-- C2: for an existing ticket, update applies exactly the fields explicitly
provided in the input and leaves every other field unchanged; updating only
status to "closed" keeps title and description and returns status "closed",
and an update with an empty body changes neither the ticket nor the store. -/
theorem update_applies_exactly_provided (s : Store) (ticket_id : Nat)
    (u : TicketUpdate) (t : Ticket)
    (h : get_ticket s ticket_id = some t) :
    (update_ticket s ticket_id u).1 = some (applyUpdate u t) ∧
    (applyUpdate u t).id = t.id ∧
    (u.title = none → (applyUpdate u t).title = t.title) ∧
    (∀ v, u.title = some v → (applyUpdate u t).title = v) ∧
    (u.description = none → (applyUpdate u t).description = t.description) ∧
    (∀ v, u.description = some v → (applyUpdate u t).description = v) ∧
    (u.status = none → (applyUpdate u t).status = t.status) ∧
    (∀ v, u.status = some v → (applyUpdate u t).status = v) ∧
    (update_ticket s ticket_id { status := some (some "closed") }).1 =
      some { t with status := some "closed" } ∧
    update_ticket s ticket_id {} = (some t, s) := by
  refine ⟨?_, rfl, ?_, ?_, ?_, ?_, ?_, ?_, ?_, ?_⟩
  · simp [update_ticket, h]
  · intro hu
    simp [applyUpdate, hu]
  · intro v hu
    simp [applyUpdate, hu]
  · intro hu
    simp [applyUpdate, hu]
  · intro v hu
    simp [applyUpdate, hu]
  · intro hu
    simp [applyUpdate, hu]
  · intro v hu
    simp [applyUpdate, hu]
  · simp [update_ticket, h, applyUpdate]
  · simp [update_ticket, h, applyUpdate_default, setFirst_default]

theorem update_applies_exactly_provided_witness :
    (update_ticket sampleStore 1 { status := some (some "closed") }).1 =
      some (applyUpdate { status := some (some "closed") } sampleTicket) :=
  (update_applies_exactly_provided sampleStore 1 { status := some (some "closed") }
    sampleTicket (by decide)).1

/-- C5: deleting an existing id returns the entity as it was immediately
before removal and removes exactly that row; a subsequent get on the same id
returns the not-found signal and the GET route answers 404; row ids are
assumed pairwise distinct, as the primary key guarantees. -/
theorem delete_then_get_none (s : Store) (ticket_id : Nat) (t : Ticket)
    (hnd : (s.rows.map Ticket.id).Nodup)
    (h : get_ticket s ticket_id = some t) :
    (delete_ticket s ticket_id).1 = some t ∧
    (delete_ticket s ticket_id).2.rows.length + 1 = s.rows.length ∧
    get_ticket (delete_ticket s ticket_id).2 ticket_id = none ∧
    route_get (delete_ticket s ticket_id).2 ticket_id =
      .failure 404 { detail := "Ticket not found" } := by
  have h2 : (delete_ticket s ticket_id).2.rows = dropFirst s.rows ticket_id := by
    simp [delete_ticket, h]
  have hget : get_ticket (delete_ticket s ticket_id).2 ticket_id = none := by
    unfold get_ticket
    rw [h2]
    exact find?_dropFirst_none s.rows ticket_id t hnd h
  refine ⟨by simp [delete_ticket, h], ?_, hget, ?_⟩
  · rw [h2]
    exact dropFirst_length s.rows ticket_id t h
  · simp [route_get, hget]

theorem delete_then_get_none_witness :
    (delete_ticket sampleStore 1).1 = some sampleTicket ∧
    get_ticket (delete_ticket sampleStore 1).2 1 = none :=
  ⟨(delete_then_get_none sampleStore 1 sampleTicket (by decide) (by decide)).1,
   (delete_then_get_none sampleStore 1 sampleTicket (by decide) (by decide)).2.2.1⟩

/-- C10: for an existing ticket, an update whose body explicitly provides a
field is applied even when the provided value is null: in general an
explicitly provided status value x is stored as is, and with status set to
null the returned entity has a null status and the persisted row in the
store has a null status. -/
theorem update_explicit_null_applied (s : Store) (ticket_id : Nat) (t : Ticket)
    (h : get_ticket s ticket_id = some t) :
    (∀ (u : TicketUpdate) (x : Option String), u.status = some x →
      (update_ticket s ticket_id u).1 = some (applyUpdate u t) ∧
      (applyUpdate u t).status = x) ∧
    (update_ticket s ticket_id { status := some none }).1 =
      some { t with status := none } ∧
    ({ t with status := none } : Ticket) ∈
      (update_ticket s ticket_id { status := some none }).2.rows := by
  refine ⟨?_, ?_, ?_⟩
  · intro u x hu
    exact ⟨by simp [update_ticket, h], by simp [applyUpdate, hu]⟩
  · simp [update_ticket, h, applyUpdate]
  · have hm := mem_setFirst s.rows ticket_id { status := some none } t h
    have he : applyUpdate { status := some none } t = { t with status := none } := by
      simp [applyUpdate]
    have h2 : (update_ticket s ticket_id { status := some none }).2.rows =
        setFirst s.rows ticket_id { status := some none } := by
      simp [update_ticket, h]
    rw [h2, ← he]
    exact hm

theorem update_explicit_null_applied_witness :
    (update_ticket sampleStore 1 { status := some none }).1 =
      some { sampleTicket with status := none } :=
  (update_explicit_null_applied sampleStore 1 sampleTicket (by decide)).2.1

/-- C4 counterexample: starting from the empty store, a create followed by an
update that explicitly sets status to null leaves a persisted ticket whose
status is null, so the non-null invariant is not preserved by every update
operation. -/
theorem nonNull_invariant_cex :
    storeNonNull (execOps emptyStore
      [.create { title := "Bug", description := "Fix crash" },
       .update 1 { status := some none }]) = false := by
  decide

/-- C4 (amended): every persisted ticket has a non-null id, and non-nullness
of title, description and status is preserved by create and delete starting
from any store satisfying it, and by any update none of whose explicitly
provided values is null. -/
theorem nonNull_invariant_amended :
    (∀ (s : Store) (c : TicketCreate),
      storeNonNull s = true → storeNonNull (create_ticket s c).2 = true) ∧
    (∀ (s : Store) (ticket_id : Nat),
      storeNonNull s = true → storeNonNull (delete_ticket s ticket_id).2 = true) ∧
    (∀ (s : Store) (ticket_id : Nat) (u : TicketUpdate),
      storeNonNull s = true → u.title ≠ some none → u.description ≠ some none →
      u.status ≠ some none → storeNonNull (update_ticket s ticket_id u).2 = true) := by
  refine ⟨?_, ?_, ?_⟩
  · intro s c hs
    unfold storeNonNull at hs ⊢
    simp only [create_ticket, List.all_append, Bool.and_eq_true]
    refine ⟨hs, ?_⟩
    simp [ticketNonNull]
  · intro s ticket_id hs
    unfold storeNonNull at hs ⊢
    cases h : get_ticket s ticket_id with
    | none => simpa [delete_ticket, h] using hs
    | some t =>
      simp only [delete_ticket, h]
      exact all_dropFirst s.rows ticket_id hs
  · intro s ticket_id u hs h1 h2 h3
    unfold storeNonNull at hs ⊢
    cases h : get_ticket s ticket_id with
    | none => simpa [update_ticket, h] using hs
    | some t =>
      simp only [update_ticket, h]
      exact all_setFirst s.rows ticket_id u hs h1 h2 h3

theorem nonNull_invariant_amended_witness :
    storeNonNull (update_ticket sampleStore 1 { status := some (some "closed") }).2 = true :=
  nonNull_invariant_amended.2.2 sampleStore 1 { status := some (some "closed") }
    (by decide) (by decide) (by decide) (by decide)

/-- C8: the id of a persisted row is never changed by update, which rewrites
fields but maps row ids to themselves, nor by delete, which only removes
rows; and the ids the store assigns along any operation sequence from the
empty store are strictly increasing, hence an id is never reused for a
different ticket even after the original is deleted. -/
theorem ids_immutable_never_reused :
    (∀ (s : Store) (ticket_id : Nat) (u : TicketUpdate),
      (update_ticket s ticket_id u).2.rows.map Ticket.id = s.rows.map Ticket.id) ∧
    (∀ (s : Store) (ticket_id : Nat),
      ((delete_ticket s ticket_id).2.rows).Sublist s.rows) ∧
    (∀ ops : List Op, (assignedIds emptyStore ops).Pairwise (· < ·)) := by
  refine ⟨?_, ?_, fun ops => assignedIds_pairwise ops emptyStore⟩
  · intro s ticket_id u
    cases h : get_ticket s ticket_id with
    | none => simp [update_ticket, h]
    | some t =>
      simp only [update_ticket, h]
      exact setFirst_map_id s.rows ticket_id u
  · intro s ticket_id
    cases h : get_ticket s ticket_id with
    | none =>
      simp only [delete_ticket, h]
      exact List.Sublist.refl _
    | some t =>
      simp only [delete_ticket, h]
      exact dropFirst_sublist s.rows ticket_id

end SmartIssueTracker
